import Mathlib

/-!
# Verification of `cs_instancegroup.py` (CloudStack instance-group reconciler)

Shallow embedding of the Ansible module `cloud/cloudstack/cs_instancegroup.py`.
Python dictionaries are modelled as association lists (first binding wins on
lookup, assignment replaces the binding); the CloudStack client `self.cs` is a
record of response oracles; a call that the client raises is an `Except` error;
`module.fail_json` terminates the invocation and is modelled as a dedicated
error constructor (in Python it raises `SystemExit`, which the `except`
clauses in `main` do not catch).  Every remote call that an operation issues
is recorded in a call log, so that frame properties (dry-run non-mutation,
memoization) are statable.
-/

set_option autoImplicit false

namespace CsInstanceGroup

/-- A CloudStack instance-group descriptor: a Python dict with string values
(the module only ever reads string-valued fields from it). -/
abbrev Dict := List (String × String)

/-- Values stored in `self.result`: the `changed` flag is a boolean, the
projected descriptor fields are strings. -/
inductive Value where
  | str (s : String)
  | bool (b : Bool)
  deriving DecidableEq, Repr

/-- The `self.result` mapping of the module. -/
abbrev Result := List (String × Value)

/-- Python `d[k]` read that returns `none` when the key is absent
(first binding wins, as in a duplicate-free Python dict). -/
def dget {α : Type} : List (String × α) → String → Option α
  | [], _ => none
  | (k2, v) :: rest, k => if k = k2 then some v else dget rest k

/-- Python `d[k] = v`: replace the binding if the key is present, append
otherwise. -/
def dset {α : Type} : List (String × α) → String → α → List (String × α)
  | [], k, v => [(k, v)]
  | (k2, v2) :: rest, k, v =>
      if k = k2 then (k2, v) :: dset rest k v else (k2, v2) :: dset rest k v

/-- Python exceptions that can escape the reconciliation code and reach the
`try`/`except` in `main`. -/
inductive PyExc where
  | cloudstack (detail : String)
  | generic (detail : String)
  deriving DecidableEq, Repr

/-- Terminal failures of the reconciliation code: either `module.fail_json`
was called with the given message, or a Python exception propagated. -/
inductive Failure where
  | failJson (msg : String)
  | exc (e : PyExc)
  deriving DecidableEq, Repr

/-- The scope filter arguments, already resolved to identifiers.  In the
source they are produced by `self.get_account('name')`,
`self.get_domain('id')`, `self.get_project('id')` of the external
`AnsibleCloudStack` collaborator (the spec's scope resolver); absence of a
parameter resolves to `None`, i.e. `none`. -/
structure Scope where
  account : Option String
  domainid : Option String
  projectid : Option String
  deriving DecidableEq, Repr

/-- The arguments of `createInstanceGroup`: the group name plus the scope
identifiers, exactly the `args` dict built in `present_instance_group`. -/
structure CreateArgs where
  name : String
  account : Option String
  domainid : Option String
  projectid : Option String
  deriving DecidableEq, Repr

/-- Response of `createInstanceGroup`: the module probes it for an
`errortext` key and then reads its `instancegroup` key. -/
structure CreateResp where
  errortext : Option String
  instancegroup : Option Dict
  deriving DecidableEq, Repr

/-- Response of `deleteInstanceGroup`: the module only probes it for an
`errortext` key. -/
structure DeleteResp where
  errortext : Option String
  deriving DecidableEq, Repr

/-- A remote call issued by the reconciler to the CloudStack client. -/
inductive Call where
  | list (args : Scope)
  | create (args : CreateArgs)
  | delete (id : String)
  deriving DecidableEq, Repr

/-- `true` for the mutating calls (create/delete), `false` for the read-only
list query. -/
def Call.isMutating : Call → Bool
  | .list _ => false
  | .create _ => true
  | .delete _ => true

/-- The CloudStack client `self.cs` as a record of deterministic response
oracles.  `listInstanceGroups` returns `none` for a falsy response (empty
dict) and `some gs` for a truthy response carrying the `instancegroup` list
`gs`; an `.error` models the client raising a Python exception. -/
structure CS where
  listInstanceGroups : Scope → Except PyExc (Option (List Dict))
  createInstanceGroup : CreateArgs → Except PyExc CreateResp
  deleteInstanceGroup : String → Except PyExc DeleteResp

/-- The relevant parts of the Ansible `module` object: the `name` parameter
and the check-mode (dry-run) flag. -/
structure Module where
  name : String
  check_mode : Bool
  deriving DecidableEq, Repr

/-- Mutable state of the `AnsibleCloudStackInstanceGroup` object:
`self.instance_group` (the lookup cache, `None` initially) and
`self.result`. -/
structure St where
  instance_group : Option Dict
  result : Result
  deriving DecidableEq, Repr

/-- Python truthiness of `self.instance_group`: `None` and the empty dict
are falsy. -/
def truthyDict : Option Dict → Bool
  | none => false
  | some g => !g.isEmpty

/-- Modelled from the spec: the initial `self.result` is set up by
`AnsibleCloudStack.__init__` (in `ansible.module_utils.cloudstack`, outside
this repository) as the ReconciliationResult `{changed: false}`. -/
def initialResult : Result := [("changed", Value.bool false)]

/-- Python `g[k]` on a descriptor dict: raises `KeyError` when the key is
absent. -/
def dgetE (g : Dict) (k : String) : Except PyExc String :=
  match dget g k with
  | some v => .ok v
  | none => .error (.generic ("KeyError: " ++ k))

/-- The scan loop of `get_instance_group`:
`for g in instance_groups['instancegroup']: if name in [ g['name'], g['id'] ]: ... break`.
Returns the first entry whose `name` or `id` field equals `name`. -/
def findGroup (name : String) : List Dict → Except PyExc (Option Dict)
  | [] => .ok none
  | g :: gs =>
    match dgetE g "name" with
    | .error e => .error e
    | .ok n =>
      match dgetE g "id" with
      | .error e => .error e
      | .ok i =>
        if name == n || name == i then .ok (some g) else findGroup name gs

/-- `AnsibleCloudStackInstanceGroup.get_instance_group`: return the cached
descriptor when truthy, otherwise issue the list query under the resolved
scope and cache the first entry whose `name` or `id` equals the `name`
parameter.  The second component is the log of remote calls issued. -/
def get_instance_group (cs : CS) (m : Module) (scope : Scope) (st : St) :
    Except Failure (Option Dict × St) × List Call :=
  if truthyDict st.instance_group then (.ok (st.instance_group, st), [])
  else
    match cs.listInstanceGroups scope with
    | .error e => (.error (.exc e), [.list scope])
    | .ok none => (.ok (st.instance_group, st), [.list scope])
    | .ok (some gs) =>
      match findGroup m.name gs with
      | .error e => (.error (.exc e), [.list scope])
      | .ok og =>
        let st2 : St :=
          { st with instance_group := og.orElse (fun _ => st.instance_group) }
        (.ok (st2.instance_group, st2), [.list scope])

/-- `present_instance_group`: look the group up; if found return it as is;
otherwise set `result['changed'] = True` and, unless in check mode, issue
`createInstanceGroup` with the name and scope identifiers, `fail_json` on an
`errortext` response, and return the created descriptor. -/
def present_instance_group (cs : CS) (m : Module) (scope : Scope) (st : St) :
    Except Failure (Option Dict × St) × List Call :=
  match get_instance_group cs m scope st with
  | (.error e, log) => (.error e, log)
  | (.ok (ig, st1), log) =>
    if truthyDict ig then (.ok (ig, st1), log)
    else
      let st2 : St := { st1 with result := dset st1.result "changed" (.bool true) }
      let args : CreateArgs :=
        ⟨m.name, scope.account, scope.domainid, scope.projectid⟩
      if m.check_mode then (.ok (ig, st2), log)
      else
        match cs.createInstanceGroup args with
        | .error e => (.error (.exc e), log ++ [.create args])
        | .ok res =>
          match res.errortext with
          | some t =>
              (.error (.failJson ("Failed: '" ++ t ++ "'")), log ++ [.create args])
          | none =>
            match res.instancegroup with
            | some g => (.ok (some g, st2), log ++ [.create args])
            | none =>
                (.error (.exc (.generic "KeyError: instancegroup")),
                 log ++ [.create args])

/-- `absent_instance_group`: look the group up; if not found return the falsy
value as is; otherwise set `result['changed'] = True` and, unless in check
mode, issue `deleteInstanceGroup` keyed by the found descriptor's `id`,
`fail_json` on an `errortext` response, and return the pre-deletion
descriptor. -/
def absent_instance_group (cs : CS) (m : Module) (scope : Scope) (st : St) :
    Except Failure (Option Dict × St) × List Call :=
  match get_instance_group cs m scope st with
  | (.error e, log) => (.error e, log)
  | (.ok (ig, st1), log) =>
    if truthyDict ig then
      let st2 : St := { st1 with result := dset st1.result "changed" (.bool true) }
      if m.check_mode then (.ok (ig, st2), log)
      else
        match dget (ig.getD []) "id" with
        | none => (.error (.exc (.generic "KeyError: id")), log)
        | some gid =>
          match cs.deleteInstanceGroup gid with
          | .error e => (.error (.exc e), log ++ [.delete gid])
          | .ok res =>
            match res.errortext with
            | some t =>
                (.error (.failJson ("Failed: '" ++ t ++ "'")), log ++ [.delete gid])
            | none => (.ok (ig, st2), log ++ [.delete gid])
    else (.ok (ig, st1), log)

/-- One `if 'k' in instance_group: self.result['k'] = instance_group['k']`
step of `get_result`. -/
def copyField (g : Dict) (r : Result) (k : String) : Result :=
  match dget g k with
  | some v => dset r k (.str v)
  | none => r

/-- `get_result`: when the descriptor is truthy, copy each of the six fields
`id`, `created`, `name`, `project`, `domain`, `account` that is present on it
into `self.result`, and return `self.result`.  Pure and total. -/
def get_result (r : Result) (ig : Option Dict) : Result :=
  match ig with
  | none => r
  | some g =>
    if g.isEmpty then r
    else
      let r1 := copyField g r "id"
      let r2 := copyField g r1 "created"
      let r3 := copyField g r2 "name"
      let r4 := copyField g r3 "project"
      let r5 := copyField g r4 "domain"
      copyField g r5 "account"

/-- Terminal outcome of one module invocation: `module.exit_json(**result)`
on success, `module.fail_json(msg=...)` on failure. -/
inductive Outcome where
  | exited (result : Result)
  | failed (msg : String)
  deriving DecidableEq, Repr

/-- `main`: abort when the `cs` library is unavailable; otherwise run the
reconciliation selected by `state`, project the returned descriptor into the
result, and exit; a `CloudStackException` is reported as
`CloudStackException: <detail>`, any other exception as
`Exception: <detail>`, and a `fail_json` message verbatim. -/
def main (has_lib_cs : Bool) (cs : CS) (m : Module) (scope : Scope)
    (state : String) : Outcome × List Call :=
  if !has_lib_cs then (.failed "python library cs required: pip install cs", [])
  else
    let st : St := { instance_group := none, result := initialResult }
    let r :=
      if state = "absent" then absent_instance_group cs m scope st
      else present_instance_group cs m scope st
    match r with
    | (.ok (ig, st1), log) => (.exited (get_result st1.result ig), log)
    | (.error (.failJson msg), log) => (.failed msg, log)
    | (.error (.exc (.cloudstack d)), log) =>
        (.failed ("CloudStackException: " ++ d), log)
    | (.error (.exc (.generic d)), log) =>
        (.failed ("Exception: " ++ d), log)

/-! ## Concrete demonstration data (used by witnesses) -/

/-- A stored instance-group descriptor. -/
def gWeb : Dict := [("id", "42"), ("name", "web"), ("account", "acme")]

/-- Another stored descriptor, listed before `gWeb`. -/
def gDb : Dict := [("id", "7"), ("name", "db")]

/-- The descriptor the demo store creates for the name `web`. -/
def gNew : Dict := [("id", "99"), ("name", "web"), ("created", "2015-05-03")]

/-- A resolved demo scope. -/
def scope0 : Scope := ⟨some "acme", some "dom1", none⟩

/-- Initial object state of one invocation: no cached lookup, the initial
result. -/
def st0 : St := { instance_group := none, result := initialResult }

/-- Module parameters targeting the group `web`, real mode. -/
def mWeb : Module := ⟨"web", false⟩

/-- Module parameters targeting the group `web`, check (dry-run) mode. -/
def mWebCheck : Module := ⟨"web", true⟩

/-- Demo store in which `web` exists (listed after `db`). -/
def csFound : CS :=
  ⟨fun _ => .ok (some [gDb, gWeb]),
   fun _ => .ok ⟨none, some gWeb⟩,
   fun _ => .ok ⟨none⟩⟩

/-- Demo store with no groups at all; creation succeeds with `gNew`. -/
def csEmpty : CS :=
  ⟨fun _ => .ok (some []),
   fun _ => .ok ⟨none, some gNew⟩,
   fun _ => .ok ⟨none⟩⟩

/-- Demo store as seen right after `gNew` was created in `csEmpty`. -/
def csNewOnly : CS :=
  ⟨fun _ => .ok (some ([] ++ [gNew])),
   fun _ => .ok ⟨none, some gNew⟩,
   fun _ => .ok ⟨none⟩⟩

/-- Demo store whose create call answers with an `errortext`. -/
def csQuota : CS :=
  ⟨fun _ => .ok (some []),
   fun _ => .ok ⟨some "quota exceeded", none⟩,
   fun _ => .ok ⟨none⟩⟩

/-- Demo store in which `web` exists and whose delete call answers with an
`errortext`. -/
def csQuotaDel : CS :=
  ⟨fun _ => .ok (some [gWeb]),
   fun _ => .ok ⟨none, none⟩,
   fun _ => .ok ⟨some "quota exceeded"⟩⟩

/-- Demo store whose list query raises a `CloudStackException`. -/
def csBoom : CS :=
  ⟨fun _ => .error (.cloudstack "boom"),
   fun _ => .ok ⟨none, none⟩,
   fun _ => .ok ⟨none⟩⟩

/-- Demo store whose list query raises a generic exception. -/
def csOops : CS :=
  ⟨fun _ => .error (.generic "oops"),
   fun _ => .ok ⟨none, none⟩,
   fun _ => .ok ⟨none⟩⟩

/-! ## Dictionary lemmas -/

theorem dget_dset {α : Type} (d : List (String × α)) (k k2 : String) (v : α) :
    dget (dset d k v) k2 = if k2 = k then some v else dget d k2 := by
  induction d with
  | nil => simp [dset, dget]
  | cons p rest ih =>
    obtain ⟨k3, v3⟩ := p
    by_cases h : k = k3
    · subst h
      by_cases h2 : k2 = k <;> simp [dset, dget, h2, ih]
    · by_cases h2 : k2 = k3
      · subst h2
        have hne : k2 ≠ k := fun hh => h hh.symm
        simp [dset, dget, h, hne]
      · simp [dset, dget, h, h2, ih]

theorem dget_copyField_self (g : Dict) (r : Result) (k : String) :
    dget (copyField g r k) k =
      match dget g k with
      | some v => some (Value.str v)
      | none => dget r k := by
  unfold copyField
  cases h : dget g k <;> simp [dget_dset]

theorem dget_copyField_ne (g : Dict) (r : Result) (k k2 : String)
    (h : k ≠ k2) : dget (copyField g r k2) k = dget r k := by
  unfold copyField
  cases h2 : dget g k2 <;> simp [dget_dset, h]

/-- The six descriptor fields `get_result` copies, in source order. -/
def sixKeys : List String :=
  ["id", "created", "name", "project", "domain", "account"]

theorem dget_nil {α : Type} (k : String) : dget ([] : List (String × α)) k = none := rfl

/-- Full characterization of the projection: at each of the six keys the
output carries the descriptor's field when present and the prior binding
otherwise; at every other key the prior binding. -/
theorem dget_get_result (r : Result) (g : Dict) (k : String) :
    dget (get_result r (some g)) k =
      if k ∈ sixKeys then
        (match dget g k with
         | some v => some (Value.str v)
         | none => dget r k)
      else dget r k := by
  by_cases hg : g.isEmpty
  · have hnil : g = [] := by
      cases g with
      | nil => rfl
      | cons a l => simp [List.isEmpty] at hg
    subst hnil
    simp [get_result, dget_nil]
  · by_cases hk : k ∈ sixKeys
    · simp only [sixKeys, List.mem_cons, List.not_mem_nil, or_false] at hk
      rcases hk with h | h | h | h | h | h <;> subst h <;>
        simp [get_result, hg, sixKeys, dget_copyField_self, dget_copyField_ne]
    · have h1 : k ≠ "id" := fun h => hk (by simp [sixKeys, h])
      have h2 : k ≠ "created" := fun h => hk (by simp [sixKeys, h])
      have h3 : k ≠ "name" := fun h => hk (by simp [sixKeys, h])
      have h4 : k ≠ "project" := fun h => hk (by simp [sixKeys, h])
      have h5 : k ≠ "domain" := fun h => hk (by simp [sixKeys, h])
      have h6 : k ≠ "account" := fun h => hk (by simp [sixKeys, h])
      simp [get_result, hg, hk, dget_copyField_ne, h1, h2, h3, h4, h5, h6]

theorem get_result_none (r : Result) : get_result r none = r := rfl

theorem get_result_empty (r : Result) : get_result r (some []) = r := rfl

/-! ## Lookup-scan lemmas -/

/-- The predicate of the scan: the entry's `name` or `id` field equals the
searched key. -/
def matchKey (name : String) (g : Dict) : Bool :=
  dget g "name" == some name || dget g "id" == some name

/-- On a well-formed collection (every entry has `name` and `id` fields) the
scan returns exactly the first entry, in collection order, whose `name` or
`id` equals the searched key. -/
theorem findGroup_eq_find (name : String) (gs : List Dict)
    (hwf : ∀ g ∈ gs, (dget g "name").isSome ∧ (dget g "id").isSome) :
    findGroup name gs = .ok (gs.find? (matchKey name)) := by
  induction gs with
  | nil => simp [findGroup]
  | cons g rest ih =>
    obtain ⟨hn, hi⟩ := hwf g (by simp)
    obtain ⟨n, hn⟩ := Option.isSome_iff_exists.mp hn
    obtain ⟨i, hi⟩ := Option.isSome_iff_exists.mp hi
    have ihr := ih (fun g2 hg2 => hwf g2 (by simp [hg2]))
    by_cases h1 : name = n
    · subst h1
      simp [findGroup, dgetE, hn, hi, matchKey, List.find?_cons]
    · by_cases h2 : name = i
      · subst h2
        have b1 : (name == n) = false := by simp [h1]
        have b3 : (n == name) = false := by
          simp
          exact fun hh => h1 hh.symm
        simp [findGroup, dgetE, hn, hi, matchKey, List.find?_cons, b1, b3]
      · have b1 : (name == n) = false := by simp [h1]
        have b2 : (name == i) = false := by simp [h2]
        have b3 : (n == name) = false := by
          simp
          exact fun hh => h1 hh.symm
        have b4 : (i == name) = false := by
          simp
          exact fun hh => h2 hh.symm
        simp [findGroup, dgetE, hn, hi, matchKey, List.find?_cons, b1, b2, b3,
          b4, ihr]

/-- A found entry is a nonempty dict (it has a `name` field). -/
theorem findGroup_some_ne_nil (name : String) (gs : List Dict) (g : Dict)
    (h : findGroup name gs = .ok (some g)) : g ≠ [] := by
  induction gs with
  | nil => simp [findGroup] at h
  | cons g2 rest ih =>
    by_cases hnil : g2 = []
    · subst hnil
      simp [findGroup, dgetE, dget_nil] at h
    · rcases hn : dget g2 "name" with _ | n
      · simp [findGroup, dgetE, hn] at h
      · rcases hi : dget g2 "id" with _ | i
        · simp [findGroup, dgetE, hn, hi] at h
        · by_cases hc : (name == n || name == i) = true
          · have : g = g2 := by
              simp [findGroup, dgetE, hn, hi, hc] at h
              exact h.symm
            subst this; exact hnil
          · simp [findGroup, dgetE, hn, hi, hc] at h
            exact ih h

/-- When the scan of a first segment finds nothing, scanning the extended
collection scans the extension. -/
theorem findGroup_append_none (name : String) (gs l : List Dict)
    (h : findGroup name gs = .ok none) :
    findGroup name (gs ++ l) = findGroup name l := by
  induction gs with
  | nil => simp
  | cons g rest ih =>
    rcases hn : dget g "name" with _ | n
    · simp [findGroup, dgetE, hn] at h
    · rcases hi : dget g "id" with _ | i
      · simp [findGroup, dgetE, hn, hi] at h
      · by_cases hc : (name == n || name == i) = true
        · simp [findGroup, dgetE, hn, hi, hc] at h
        · simp only [findGroup, dgetE, hn, hi, hc, List.cons_append, if_neg] at h ⊢
          simp [hc] at h ⊢
          exact ih h

/-! ## Branch characterizations of the operations -/

theorem truthy_of_ne_nil (g : Dict) (h : g ≠ []) : truthyDict (some g) = true := by
  cases g with
  | nil => exact absurd rfl h
  | cons a l => simp [truthyDict, List.isEmpty]

theorem dget_some_ne_nil {α : Type} (g : List (String × α)) (k : String)
    (v : α) (h : dget g k = some v) : g ≠ [] := by
  cases g with
  | nil => simp [dget] at h
  | cons a l => simp

theorem get_ig_cached (cs : CS) (m : Module) (scope : Scope) (st : St)
    (hc : truthyDict st.instance_group = true) :
    get_instance_group cs m scope st = (.ok (st.instance_group, st), []) := by
  simp [get_instance_group, hc]

theorem get_ig_found (cs : CS) (m : Module) (scope : Scope) (st : St)
    (gs : List Dict) (g : Dict)
    (hc : truthyDict st.instance_group = false)
    (hl : cs.listInstanceGroups scope = .ok (some gs))
    (hf : findGroup m.name gs = .ok (some g)) :
    get_instance_group cs m scope st =
      (.ok (some g, { st with instance_group := some g }), [.list scope]) := by
  simp [get_instance_group, hc, hl, hf, Option.orElse]

theorem get_ig_not_found (cs : CS) (m : Module) (scope : Scope) (st : St)
    (gs : List Dict)
    (hc : truthyDict st.instance_group = false)
    (hl : cs.listInstanceGroups scope = .ok (some gs))
    (hf : findGroup m.name gs = .ok none) :
    get_instance_group cs m scope st =
      (.ok (st.instance_group, st), [.list scope]) := by
  simp [get_instance_group, hc, hl, hf, Option.orElse]

theorem get_ig_list_falsy (cs : CS) (m : Module) (scope : Scope) (st : St)
    (hc : truthyDict st.instance_group = false)
    (hl : cs.listInstanceGroups scope = .ok none) :
    get_instance_group cs m scope st =
      (.ok (st.instance_group, st), [.list scope]) := by
  simp [get_instance_group, hc, hl]

theorem get_ig_list_exc (cs : CS) (m : Module) (scope : Scope) (st : St)
    (e : PyExc)
    (hc : truthyDict st.instance_group = false)
    (hl : cs.listInstanceGroups scope = .error e) :
    get_instance_group cs m scope st = (.error (.exc e), [.list scope]) := by
  simp [get_instance_group, hc, hl]

/-- The lookup only ever issues the list query. -/
theorem get_ig_calls (cs : CS) (m : Module) (scope : Scope) (st : St) :
    (get_instance_group cs m scope st).2 = [] ∨
    (get_instance_group cs m scope st).2 = [Call.list scope] := by
  by_cases hc : truthyDict st.instance_group = true
  · simp [get_instance_group, hc]
  · rw [Bool.not_eq_true] at hc
    rcases hl : cs.listInstanceGroups scope with e | og
    · simp [get_instance_group, hc, hl]
    · rcases og with _ | gs
      · simp [get_instance_group, hc, hl]
      · rcases hf : findGroup m.name gs with e | og2 <;>
          simp [get_instance_group, hc, hl, hf]

theorem present_found (cs : CS) (m : Module) (scope : Scope) (st : St)
    (gs : List Dict) (g : Dict)
    (hc : truthyDict st.instance_group = false)
    (hl : cs.listInstanceGroups scope = .ok (some gs))
    (hf : findGroup m.name gs = .ok (some g)) :
    present_instance_group cs m scope st =
      (.ok (some g, { st with instance_group := some g }), [.list scope]) := by
  have hget := get_ig_found cs m scope st gs g hc hl hf
  have hg := findGroup_some_ne_nil m.name gs g hf
  simp [present_instance_group, hget, truthy_of_ne_nil g hg]

theorem present_not_found_create (cs : CS) (m : Module) (scope : Scope)
    (st : St) (gs : List Dict) (d : Dict)
    (hc : truthyDict st.instance_group = false)
    (hl : cs.listInstanceGroups scope = .ok (some gs))
    (hf : findGroup m.name gs = .ok none)
    (hcm : m.check_mode = false)
    (hcr : cs.createInstanceGroup
        ⟨m.name, scope.account, scope.domainid, scope.projectid⟩ =
      .ok ⟨none, some d⟩) :
    present_instance_group cs m scope st =
      (.ok (some d, { st with result := dset st.result "changed" (.bool true) }),
       [.list scope,
        .create ⟨m.name, scope.account, scope.domainid, scope.projectid⟩]) := by
  have hget := get_ig_not_found cs m scope st gs hc hl hf
  simp [present_instance_group, hget, hc, hcm, hcr]

theorem present_not_found_check (cs : CS) (m : Module) (scope : Scope)
    (st : St) (gs : List Dict)
    (hc : truthyDict st.instance_group = false)
    (hl : cs.listInstanceGroups scope = .ok (some gs))
    (hf : findGroup m.name gs = .ok none)
    (hcm : m.check_mode = true) :
    present_instance_group cs m scope st =
      (.ok (st.instance_group,
            { st with result := dset st.result "changed" (.bool true) }),
       [.list scope]) := by
  have hget := get_ig_not_found cs m scope st gs hc hl hf
  simp [present_instance_group, hget, hc, hcm]

theorem present_create_errortext (cs : CS) (m : Module) (scope : Scope)
    (st : St) (gs : List Dict) (t : String) (igf : Option Dict)
    (hc : truthyDict st.instance_group = false)
    (hl : cs.listInstanceGroups scope = .ok (some gs))
    (hf : findGroup m.name gs = .ok none)
    (hcm : m.check_mode = false)
    (hcr : cs.createInstanceGroup
        ⟨m.name, scope.account, scope.domainid, scope.projectid⟩ =
      .ok ⟨some t, igf⟩) :
    present_instance_group cs m scope st =
      (.error (.failJson ("Failed: '" ++ t ++ "'")),
       [.list scope,
        .create ⟨m.name, scope.account, scope.domainid, scope.projectid⟩]) := by
  have hget := get_ig_not_found cs m scope st gs hc hl hf
  simp [present_instance_group, hget, hc, hcm, hcr]

theorem absent_not_found (cs : CS) (m : Module) (scope : Scope) (st : St)
    (gs : List Dict)
    (hc : truthyDict st.instance_group = false)
    (hl : cs.listInstanceGroups scope = .ok (some gs))
    (hf : findGroup m.name gs = .ok none) :
    absent_instance_group cs m scope st =
      (.ok (st.instance_group, st), [.list scope]) := by
  have hget := get_ig_not_found cs m scope st gs hc hl hf
  simp [absent_instance_group, hget, hc]

theorem absent_found_delete (cs : CS) (m : Module) (scope : Scope) (st : St)
    (gs : List Dict) (g : Dict) (gid : String)
    (hc : truthyDict st.instance_group = false)
    (hl : cs.listInstanceGroups scope = .ok (some gs))
    (hf : findGroup m.name gs = .ok (some g))
    (hcm : m.check_mode = false)
    (hid : dget g "id" = some gid)
    (hdel : cs.deleteInstanceGroup gid = .ok ⟨none⟩) :
    absent_instance_group cs m scope st =
      (.ok (some g,
            { st with instance_group := some g,
                      result := dset st.result "changed" (.bool true) }),
       [.list scope, .delete gid]) := by
  have hget := get_ig_found cs m scope st gs g hc hl hf
  have hg := findGroup_some_ne_nil m.name gs g hf
  simp [absent_instance_group, hget, truthy_of_ne_nil g hg, hcm, hid, hdel]

theorem absent_found_check (cs : CS) (m : Module) (scope : Scope) (st : St)
    (gs : List Dict) (g : Dict)
    (hc : truthyDict st.instance_group = false)
    (hl : cs.listInstanceGroups scope = .ok (some gs))
    (hf : findGroup m.name gs = .ok (some g))
    (hcm : m.check_mode = true) :
    absent_instance_group cs m scope st =
      (.ok (some g,
            { st with instance_group := some g,
                      result := dset st.result "changed" (.bool true) }),
       [.list scope]) := by
  have hget := get_ig_found cs m scope st gs g hc hl hf
  have hg := findGroup_some_ne_nil m.name gs g hf
  simp [absent_instance_group, hget, truthy_of_ne_nil g hg, hcm]

theorem absent_delete_errortext (cs : CS) (m : Module) (scope : Scope)
    (st : St) (gs : List Dict) (g : Dict) (gid t : String)
    (hc : truthyDict st.instance_group = false)
    (hl : cs.listInstanceGroups scope = .ok (some gs))
    (hf : findGroup m.name gs = .ok (some g))
    (hcm : m.check_mode = false)
    (hid : dget g "id" = some gid)
    (hdel : cs.deleteInstanceGroup gid = .ok ⟨some t⟩) :
    absent_instance_group cs m scope st =
      (.error (.failJson ("Failed: '" ++ t ++ "'")),
       [.list scope, .delete gid]) := by
  have hget := get_ig_found cs m scope st gs g hc hl hf
  have hg := findGroup_some_ne_nil m.name gs g hf
  simp [absent_instance_group, hget, truthy_of_ne_nil g hg, hcm, hid, hdel]

/-- In check mode `present_instance_group` never issues a mutating call. -/
theorem present_calls_check_mode (cs : CS) (m : Module) (scope : Scope)
    (st : St) (hcm : m.check_mode = true) :
    ((present_instance_group cs m scope st).2).all
      (fun c => !c.isMutating) = true := by
  have hlog := get_ig_calls cs m scope st
  rcases hget : get_instance_group cs m scope st with ⟨r, log⟩
  rw [hget] at hlog
  have hall : log.all (fun c => !c.isMutating) = true := by
    rcases hlog with h | h <;> subst h <;> simp [Call.isMutating]
  rcases r with e | ⟨ig, st1⟩
  · simp [present_instance_group, hget, hall]
  · by_cases ht : truthyDict ig = true
    · simp [present_instance_group, hget, ht, hall]
    · rw [Bool.not_eq_true] at ht
      simp [present_instance_group, hget, ht, hcm, hall]

/-- In check mode `absent_instance_group` never issues a mutating call. -/
theorem absent_calls_check_mode (cs : CS) (m : Module) (scope : Scope)
    (st : St) (hcm : m.check_mode = true) :
    ((absent_instance_group cs m scope st).2).all
      (fun c => !c.isMutating) = true := by
  have hlog := get_ig_calls cs m scope st
  rcases hget : get_instance_group cs m scope st with ⟨r, log⟩
  rw [hget] at hlog
  have hall : log.all (fun c => !c.isMutating) = true := by
    rcases hlog with h | h <;> subst h <;> simp [Call.isMutating]
  rcases r with e | ⟨ig, st1⟩
  · simp [absent_instance_group, hget, hall]
  · by_cases ht : truthyDict ig = true
    · simp [absent_instance_group, hget, ht, hcm, hall]
    · rw [Bool.not_eq_true] at ht
      simp [absent_instance_group, hget, ht, hall]

/-! ## Claims -/

/-- C1: `present_instance_group` returns a found descriptor unchanged with
`changed = false` (the result mapping stays the initial one); when no group
is found it marks `changed = true` and, outside dry-run mode, issues exactly
one create request carrying the name and the optional account/domain/project
scope identifiers, returning the created descriptor. -/
theorem c1_ensure_present (cs : CS) (m : Module) (scope : Scope)
    (gs : List Dict) :
    (∀ g, cs.listInstanceGroups scope = .ok (some gs) →
      findGroup m.name gs = .ok (some g) →
      present_instance_group cs m scope st0 =
        (.ok (some g, { instance_group := some g, result := initialResult }),
         [.list scope]) ∧
      dget initialResult "changed" = some (Value.bool false))
    ∧
    (∀ d, m.check_mode = false →
      cs.listInstanceGroups scope = .ok (some gs) →
      findGroup m.name gs = .ok none →
      cs.createInstanceGroup
          ⟨m.name, scope.account, scope.domainid, scope.projectid⟩ =
        .ok ⟨none, some d⟩ →
      present_instance_group cs m scope st0 =
        (.ok (some d,
              { instance_group := none,
                result := dset initialResult "changed" (.bool true) }),
         [.list scope,
          .create ⟨m.name, scope.account, scope.domainid, scope.projectid⟩]) ∧
      dget (dset initialResult "changed" (Value.bool true)) "changed" =
        some (Value.bool true)) := by
  constructor
  · intro g hl hf
    refine ⟨?_, rfl⟩
    exact present_found cs m scope st0 gs g rfl hl hf
  · intro d hcm hl hf hcr
    refine ⟨?_, by simp [initialResult, dget_dset]⟩
    exact present_not_found_create cs m scope st0 gs d rfl hl hf hcm hcr

/-- Witness for C1: both branches evaluated on concrete demo stores. -/
theorem c1_ensure_present_witness :
    (present_instance_group csFound mWeb scope0 st0 =
      (.ok (some gWeb, { instance_group := some gWeb, result := initialResult }),
       [.list scope0]) ∧
     dget initialResult "changed" = some (Value.bool false))
    ∧
    (present_instance_group csEmpty mWeb scope0 st0 =
      (.ok (some gNew,
            { instance_group := none,
              result := dset initialResult "changed" (.bool true) }),
       [.list scope0,
        .create ⟨"web", some "acme", some "dom1", none⟩]) ∧
     dget (dset initialResult "changed" (Value.bool true)) "changed" =
       some (Value.bool true)) :=
  ⟨(c1_ensure_present csFound mWeb scope0 [gDb, gWeb]).1 gWeb rfl rfl,
   (c1_ensure_present csEmpty mWeb scope0 []).2 gNew rfl rfl rfl rfl⟩

/-- C2: `absent_instance_group` returns the falsy lookup value with
`changed = false` when no group is found; when a group is found it marks
`changed = true`, issues (outside dry-run mode) exactly one delete request
keyed by the found descriptor's `id`, and returns the pre-deletion
descriptor in either mode. -/
theorem c2_ensure_absent (cs : CS) (m : Module) (scope : Scope)
    (gs : List Dict) :
    (cs.listInstanceGroups scope = .ok (some gs) →
      findGroup m.name gs = .ok none →
      absent_instance_group cs m scope st0 =
        (.ok (none, st0), [.list scope]) ∧
      dget initialResult "changed" = some (Value.bool false))
    ∧
    (∀ g gid, m.check_mode = false →
      cs.listInstanceGroups scope = .ok (some gs) →
      findGroup m.name gs = .ok (some g) →
      dget g "id" = some gid →
      cs.deleteInstanceGroup gid = .ok ⟨none⟩ →
      absent_instance_group cs m scope st0 =
        (.ok (some g,
              { instance_group := some g,
                result := dset initialResult "changed" (.bool true) }),
         [.list scope, .delete gid]))
    ∧
    (∀ g, m.check_mode = true →
      cs.listInstanceGroups scope = .ok (some gs) →
      findGroup m.name gs = .ok (some g) →
      absent_instance_group cs m scope st0 =
        (.ok (some g,
              { instance_group := some g,
                result := dset initialResult "changed" (.bool true) }),
         [.list scope])) := by
  refine ⟨fun hl hf => ⟨?_, rfl⟩, fun g gid hcm hl hf hid hdel => ?_,
    fun g hcm hl hf => ?_⟩
  · exact absent_not_found cs m scope st0 gs rfl hl hf
  · exact absent_found_delete cs m scope st0 gs g gid rfl hl hf hcm hid hdel
  · exact absent_found_check cs m scope st0 gs g rfl hl hf hcm

/-- Witness for C2: all three branches evaluated on concrete demo stores. -/
theorem c2_ensure_absent_witness :
    (absent_instance_group csEmpty mWeb scope0 st0 =
      (.ok (none, st0), [.list scope0]) ∧
     dget initialResult "changed" = some (Value.bool false))
    ∧
    absent_instance_group csFound mWeb scope0 st0 =
      (.ok (some gWeb,
            { instance_group := some gWeb,
              result := dset initialResult "changed" (.bool true) }),
       [.list scope0, .delete "42"]) ∧
    absent_instance_group csFound mWebCheck scope0 st0 =
      (.ok (some gWeb,
            { instance_group := some gWeb,
              result := dset initialResult "changed" (.bool true) }),
       [.list scope0]) :=
  ⟨(c2_ensure_absent csEmpty mWeb scope0 []).1 rfl rfl,
   (c2_ensure_absent csFound mWeb scope0 [gDb, gWeb]).2.1 gWeb "42" rfl rfl
     rfl rfl rfl,
   (c2_ensure_absent csFound mWebCheck scope0 [gDb, gWeb]).2.2 gWeb rfl rfl
     rfl⟩

/-- C3: with the check-mode flag set, neither operation ever issues a
mutating (create/delete) call, for every store and state; the `changed`
flag still reflects what would happen: in particular `present` in dry-run
with no existing group returns `none` as the descriptor while setting
`changed = true`, and `absent` in dry-run with an existing group sets
`changed = true` without deleting. -/
theorem c3_dry_run_non_mutation (cs : CS) (m : Module) (scope : Scope) :
    (∀ st, m.check_mode = true →
      ((present_instance_group cs m scope st).2).all
        (fun c => !c.isMutating) = true ∧
      ((absent_instance_group cs m scope st).2).all
        (fun c => !c.isMutating) = true)
    ∧
    (∀ gs, m.check_mode = true →
      cs.listInstanceGroups scope = .ok (some gs) →
      findGroup m.name gs = .ok none →
      present_instance_group cs m scope st0 =
        (.ok (none,
              { instance_group := none,
                result := dset initialResult "changed" (.bool true) }),
         [.list scope]) ∧
      dget (dset initialResult "changed" (Value.bool true)) "changed" =
        some (Value.bool true))
    ∧
    (∀ gs g, m.check_mode = true →
      cs.listInstanceGroups scope = .ok (some gs) →
      findGroup m.name gs = .ok (some g) →
      absent_instance_group cs m scope st0 =
        (.ok (some g,
              { instance_group := some g,
                result := dset initialResult "changed" (.bool true) }),
         [.list scope])) := by
  refine ⟨fun st hcm => ⟨?_, ?_⟩, fun gs hcm hl hf => ⟨?_, ?_⟩,
    fun gs g hcm hl hf => ?_⟩
  · exact present_calls_check_mode cs m scope st hcm
  · exact absent_calls_check_mode cs m scope st hcm
  · exact present_not_found_check cs m scope st0 gs rfl hl hf hcm
  · simp [initialResult, dget_dset]
  · exact absent_found_check cs m scope st0 gs g rfl hl hf hcm

/-- Witness for C3: all three conjuncts evaluated on concrete demo stores. -/
theorem c3_dry_run_non_mutation_witness :
    (((present_instance_group csEmpty mWebCheck scope0 st0).2).all
        (fun c => !c.isMutating) = true ∧
     ((absent_instance_group csEmpty mWebCheck scope0 st0).2).all
        (fun c => !c.isMutating) = true)
    ∧
    (present_instance_group csEmpty mWebCheck scope0 st0 =
      (.ok (none,
            { instance_group := none,
              result := dset initialResult "changed" (.bool true) }),
       [.list scope0]) ∧
     dget (dset initialResult "changed" (Value.bool true)) "changed" =
       some (Value.bool true))
    ∧
    absent_instance_group csFound mWebCheck scope0 st0 =
      (.ok (some gWeb,
            { instance_group := some gWeb,
              result := dset initialResult "changed" (.bool true) }),
       [.list scope0]) :=
  ⟨(c3_dry_run_non_mutation csEmpty mWebCheck scope0).1 st0 rfl,
   (c3_dry_run_non_mutation csEmpty mWebCheck scope0).2.1 [] rfl rfl rfl,
   (c3_dry_run_non_mutation csFound mWebCheck scope0).2.2 [gDb, gWeb] gWeb
     rfl rfl rfl⟩

/-- C4: on a well-formed listed collection the lookup returns exactly the
first entry, in collection order, whose stored `name` or stored `id` equals
the searched key (`List.find?` returns the first match); it matches under
either key, and returns `none` exactly when no entry matches. -/
theorem c4_lookup_dual_key (cs : CS) (m : Module) (scope : Scope)
    (r : Result) (gs : List Dict)
    (hl : cs.listInstanceGroups scope = .ok (some gs))
    (hwf : ∀ g ∈ gs, (dget g "name").isSome ∧ (dget g "id").isSome) :
    get_instance_group cs m scope { instance_group := none, result := r } =
      (.ok (gs.find? (matchKey m.name),
            { instance_group := gs.find? (matchKey m.name), result := r }),
       [.list scope])
    ∧ (∀ g ∈ gs, (dget g "name" = some m.name ∨ dget g "id" = some m.name) →
        (gs.find? (matchKey m.name)).isSome = true)
    ∧ ((∀ g ∈ gs, matchKey m.name g = false) →
        gs.find? (matchKey m.name) = none) := by
  have hf := findGroup_eq_find m.name gs hwf
  refine ⟨?_, fun g hg hmatch => ?_, fun hall => ?_⟩
  · rcases hfind : gs.find? (matchKey m.name) with _ | g
    · rw [hfind] at hf
      exact get_ig_not_found cs m scope _ gs rfl hl hf
    · rw [hfind] at hf
      exact get_ig_found cs m scope _ gs g rfl hl hf
  · rw [List.find?_isSome]
    refine ⟨g, hg, ?_⟩
    rcases hmatch with h | h <;> simp [matchKey, h]
  · rw [List.find?_eq_none]
    intro x hx
    simp [hall x hx]

/-- Witness for C4: the dual-key lookup evaluated on a concrete store, also
at the stored `id` of the listed descriptor. -/
theorem c4_lookup_dual_key_witness :
    get_instance_group csFound mWeb scope0
        { instance_group := none, result := initialResult } =
      (.ok ([gDb, gWeb].find? (matchKey "web"),
            { instance_group := [gDb, gWeb].find? (matchKey "web"),
              result := initialResult }),
       [.list scope0])
    ∧ ([gDb, gWeb].find? (matchKey "web")).isSome = true
    ∧ ([gDb, gWeb].find? (matchKey "42")).isSome = true :=
  ⟨(c4_lookup_dual_key csFound mWeb scope0 initialResult [gDb, gWeb] rfl
      (by decide)).1,
   (c4_lookup_dual_key csFound mWeb scope0 initialResult [gDb, gWeb] rfl
      (by decide)).2.1 gWeb (by decide) (Or.inl (by decide)),
   (c4_lookup_dual_key csFound ⟨"42", false⟩ scope0 initialResult [gDb, gWeb]
      rfl (by decide)).2.1 gWeb (by decide) (Or.inr (by decide))⟩

/-- C5: an `errortext` field in the create or delete response makes the
operation, and the whole invocation, fail fatally with a message carrying
that text; no descriptor is returned as success. -/
theorem c5_mutation_errortext (cs : CS) (m : Module) (scope : Scope)
    (gs : List Dict) (t : String) :
    (∀ igf, m.check_mode = false →
      cs.listInstanceGroups scope = .ok (some gs) →
      findGroup m.name gs = .ok none →
      cs.createInstanceGroup
          ⟨m.name, scope.account, scope.domainid, scope.projectid⟩ =
        .ok ⟨some t, igf⟩ →
      present_instance_group cs m scope st0 =
        (.error (.failJson ("Failed: '" ++ t ++ "'")),
         [.list scope,
          .create ⟨m.name, scope.account, scope.domainid, scope.projectid⟩]) ∧
      main true cs m scope "present" =
        (.failed ("Failed: '" ++ t ++ "'"),
         [.list scope,
          .create ⟨m.name, scope.account, scope.domainid, scope.projectid⟩]))
    ∧
    (∀ g gid, m.check_mode = false →
      cs.listInstanceGroups scope = .ok (some gs) →
      findGroup m.name gs = .ok (some g) →
      dget g "id" = some gid →
      cs.deleteInstanceGroup gid = .ok ⟨some t⟩ →
      absent_instance_group cs m scope st0 =
        (.error (.failJson ("Failed: '" ++ t ++ "'")),
         [.list scope, .delete gid]) ∧
      main true cs m scope "absent" =
        (.failed ("Failed: '" ++ t ++ "'"), [.list scope, .delete gid])) := by
  constructor
  · intro igf hcm hl hf hcr
    have hp := present_create_errortext cs m scope
      { instance_group := none, result := initialResult } gs t igf rfl hl hf
      hcm hcr
    exact ⟨hp, by simp [main, hp]⟩
  · intro g gid hcm hl hf hid hdel
    have ha := absent_delete_errortext cs m scope
      { instance_group := none, result := initialResult } gs g gid t rfl hl
      hf hcm hid hdel
    exact ⟨ha, by simp [main, ha]⟩

/-- Witness for C5: both error paths evaluated on concrete stores whose
mutating calls answer with the error text `quota exceeded`. -/
theorem c5_mutation_errortext_witness :
    main true csQuota mWeb scope0 "present" =
      (.failed "Failed: 'quota exceeded'",
       [.list scope0, .create ⟨"web", some "acme", some "dom1", none⟩]) ∧
    main true csQuotaDel mWeb scope0 "absent" =
      (.failed "Failed: 'quota exceeded'", [.list scope0, .delete "42"]) :=
  ⟨((c5_mutation_errortext csQuota mWeb scope0 [] "quota exceeded").1 none
      rfl rfl rfl rfl).2,
   ((c5_mutation_errortext csQuotaDel mWeb scope0 [gWeb] "quota exceeded").2
      gWeb "42" rfl rfl rfl rfl rfl).2⟩

/-- C6 counterexample: after a first lookup that found nothing the cache is
left empty (`self.instance_group` is only assigned inside the scan loop), so
the object state after the call equals the state before it, and the repeated
call — the very same application — issues the remote list query again: its
call log is `[list]`, not `[]`.  This refutes the claim that repeated
lookups re-issue no query *for every outcome* of the first lookup. -/
theorem c6_memoization_counterexample :
    get_instance_group csEmpty mWeb scope0 st0 =
      (.ok (none, st0), [Call.list scope0]) ∧
    (get_instance_group csEmpty mWeb scope0 st0).2 ≠ ([] : List Call) := by
  constructor
  · rfl
  · decide

/-- C6 amended: the lookup result is cached only when the first call found a
group — then a repeated call issues no remote query and returns the same
descriptor; after a not-found first call the state is unchanged, so a
repeated call re-issues the list query (returning the same result while the
remote collection is unchanged). -/
theorem c6_lookup_memoization (cs : CS) (m : Module) (scope : Scope) :
    (∀ st gs g, truthyDict st.instance_group = false →
      cs.listInstanceGroups scope = .ok (some gs) →
      findGroup m.name gs = .ok (some g) →
      get_instance_group cs m scope st =
        (.ok (some g, { st with instance_group := some g }), [.list scope]) ∧
      get_instance_group cs m scope { st with instance_group := some g } =
        (.ok (some g, { st with instance_group := some g }), []))
    ∧
    (∀ r gs, cs.listInstanceGroups scope = .ok (some gs) →
      findGroup m.name gs = .ok none →
      get_instance_group cs m scope
          { instance_group := none, result := r } =
        (.ok (none, { instance_group := none, result := r }),
         [.list scope]) ∧
      [Call.list scope] ≠ ([] : List Call)) := by
  constructor
  · intro st gs g hc hl hf
    refine ⟨get_ig_found cs m scope st gs g hc hl hf, ?_⟩
    have hg := findGroup_some_ne_nil m.name gs g hf
    exact get_ig_cached cs m scope _ (truthy_of_ne_nil g hg)
  · intro r gs hl hf
    exact ⟨get_ig_not_found cs m scope _ gs rfl hl hf, by simp⟩

/-- Witness for C6 amended: both memoization behaviours evaluated on
concrete stores. -/
theorem c6_lookup_memoization_witness :
    (get_instance_group csFound mWeb scope0 st0 =
      (.ok (some gWeb, { st0 with instance_group := some gWeb }),
       [.list scope0]) ∧
     get_instance_group csFound mWeb scope0
        { st0 with instance_group := some gWeb } =
      (.ok (some gWeb, { st0 with instance_group := some gWeb }), [])) ∧
    get_instance_group csEmpty mWeb scope0
        { instance_group := none, result := initialResult } =
      (.ok (none, { instance_group := none, result := initialResult }),
       [.list scope0]) :=
  ⟨(c6_lookup_memoization csFound mWeb scope0).1 st0 [gDb, gWeb] gWeb rfl rfl
     rfl,
   ((c6_lookup_memoization csEmpty mWeb scope0).2 initialResult [] rfl
     rfl).1⟩

/-- C7: with no external interference, running `present` twice yields
`changed = true` then `changed = false` and the second run returns exactly
the descriptor the first run created (the second store lists the old
collection extended by the created descriptor); running `absent` twice
yields `changed = true` then `changed = false`. -/
theorem c7_idempotence (m : Module) (scope : Scope) :
    (∀ cs1 cs2 gs1 d did, m.check_mode = false →
      cs1.listInstanceGroups scope = .ok (some gs1) →
      findGroup m.name gs1 = .ok none →
      cs1.createInstanceGroup
          ⟨m.name, scope.account, scope.domainid, scope.projectid⟩ =
        .ok ⟨none, some d⟩ →
      dget d "name" = some m.name →
      dget d "id" = some did →
      cs2.listInstanceGroups scope = .ok (some (gs1 ++ [d])) →
      present_instance_group cs1 m scope st0 =
        (.ok (some d,
              { instance_group := none,
                result := dset initialResult "changed" (.bool true) }),
         [.list scope,
          .create ⟨m.name, scope.account, scope.domainid, scope.projectid⟩]) ∧
      present_instance_group cs2 m scope st0 =
        (.ok (some d, { instance_group := some d, result := initialResult }),
         [.list scope]) ∧
      dget (dset initialResult "changed" (Value.bool true)) "changed" =
        some (Value.bool true) ∧
      dget initialResult "changed" = some (Value.bool false))
    ∧
    (∀ cs1 cs2 gs1 gs2 g gid, m.check_mode = false →
      cs1.listInstanceGroups scope = .ok (some gs1) →
      findGroup m.name gs1 = .ok (some g) →
      dget g "id" = some gid →
      cs1.deleteInstanceGroup gid = .ok ⟨none⟩ →
      cs2.listInstanceGroups scope = .ok (some gs2) →
      findGroup m.name gs2 = .ok none →
      absent_instance_group cs1 m scope st0 =
        (.ok (some g,
              { instance_group := some g,
                result := dset initialResult "changed" (.bool true) }),
         [.list scope, .delete gid]) ∧
      absent_instance_group cs2 m scope st0 =
        (.ok (none, st0), [.list scope])) := by
  constructor
  · intro cs1 cs2 gs1 d did hcm hl1 hf1 hcr hdn hdi hl2
    have hf2 : findGroup m.name (gs1 ++ [d]) = .ok (some d) := by
      rw [findGroup_append_none m.name gs1 [d] hf1]
      simp [findGroup, dgetE, hdn, hdi]
    refine ⟨present_not_found_create cs1 m scope st0 gs1 d rfl hl1 hf1 hcm hcr,
      present_found cs2 m scope st0 (gs1 ++ [d]) d rfl hl2 hf2, ?_, rfl⟩
    simp [initialResult, dget_dset]
  · intro cs1 cs2 gs1 gs2 g gid hcm hl1 hf1 hid hdel hl2 hf2
    exact ⟨absent_found_delete cs1 m scope st0 gs1 g gid rfl hl1 hf1 hcm hid
        hdel,
      absent_not_found cs2 m scope st0 gs2 rfl hl2 hf2⟩

/-- Witness for C7: the two double runs evaluated on concrete stores;
`csNewOnly` is the store after the create in `csEmpty`, and `csEmpty` is the
store after the delete in `csFound` restricted to the searched name. -/
theorem c7_idempotence_witness :
    (present_instance_group csEmpty mWeb scope0 st0 =
      (.ok (some gNew,
            { instance_group := none,
              result := dset initialResult "changed" (.bool true) }),
       [.list scope0, .create ⟨"web", some "acme", some "dom1", none⟩]) ∧
     present_instance_group csNewOnly mWeb scope0 st0 =
      (.ok (some gNew,
            { instance_group := some gNew, result := initialResult }),
       [.list scope0]) ∧
     dget (dset initialResult "changed" (Value.bool true)) "changed" =
       some (Value.bool true) ∧
     dget initialResult "changed" = some (Value.bool false)) ∧
    (absent_instance_group csFound mWeb scope0 st0 =
      (.ok (some gWeb,
            { instance_group := some gWeb,
              result := dset initialResult "changed" (.bool true) }),
       [.list scope0, .delete "42"]) ∧
     absent_instance_group csEmpty mWeb scope0 st0 =
      (.ok (none, st0), [.list scope0])) :=
  ⟨(c7_idempotence mWeb scope0).1 csEmpty csNewOnly [] gNew "99" rfl rfl rfl
     rfl rfl rfl rfl,
   (c7_idempotence mWeb scope0).2 csFound csEmpty [gDb, gWeb] [] gWeb "42"
     rfl rfl rfl rfl rfl rfl rfl⟩

/-- C8: `get_result` copies exactly those of the six fields `id`, `created`,
`name`, `project`, `domain`, `account` that are present on the descriptor
into the result, omits absent fields entirely (they stay unbound rather than
defaulting to null/empty), and touches no other key; it is a pure total
function (it never fails and has no side effects by construction). -/
theorem c8_projection :
    (∀ (g : Dict) (k : String), k ∈ sixKeys →
      dget (get_result initialResult (some g)) k = (dget g k).map Value.str)
    ∧
    (∀ (g : Dict) (k : String), k ∉ sixKeys →
      dget (get_result initialResult (some g)) k = dget initialResult k) := by
  constructor
  · intro g k hk
    have hinit : dget initialResult k = none := by
      simp only [sixKeys, List.mem_cons, List.not_mem_nil, or_false] at hk
      rcases hk with h | h | h | h | h | h <;> subst h <;> rfl
    rw [dget_get_result, if_pos hk, hinit]
    cases dget g k <;> simp
  · intro g k hk
    rw [dget_get_result, if_neg hk]

/-- Witness for C8: projection of a concrete descriptor, at a key the
descriptor carries (`name`), at one it lacks (`domain`), and at a key
outside the six (`changed`). -/
theorem c8_projection_witness :
    ("name" ∈ sixKeys ∧
     dget (get_result initialResult (some gNew)) "name" =
       (dget gNew "name").map Value.str) ∧
    ("domain" ∈ sixKeys ∧
     dget (get_result initialResult (some gNew)) "domain" =
       (dget gNew "domain").map Value.str) ∧
    dget (get_result initialResult (some gNew)) "changed" =
      dget initialResult "changed" :=
  ⟨⟨by decide, c8_projection.1 gNew "name" (by decide)⟩,
   ⟨by decide, c8_projection.1 gNew "domain" (by decide)⟩,
   c8_projection.2 gNew "changed" (by decide)⟩

/-- C9: when the `cs` client library is unavailable the invocation aborts
fatally before any reconciliation attempt (its call log is empty); a
`CloudStackException` raised during reconciliation yields a fatal failure
with message `CloudStackException: <detail>`, any other exception one with
`Exception: <detail>`; a failure outcome is always distinguishable from a
success outcome. -/
theorem c9_failure_taxonomy :
    (∀ (cs : CS) (m : Module) (scope : Scope) (state : String),
      main false cs m scope state =
        (.failed "python library cs required: pip install cs", []))
    ∧
    (∀ (cs : CS) (m : Module) (scope : Scope) (d : String)
        (log : List Call),
      present_instance_group cs m scope
          { instance_group := none, result := initialResult } =
        (.error (.exc (.cloudstack d)), log) →
      main true cs m scope "present" =
        (.failed ("CloudStackException: " ++ d), log))
    ∧
    (∀ (cs : CS) (m : Module) (scope : Scope) (d : String)
        (log : List Call),
      present_instance_group cs m scope
          { instance_group := none, result := initialResult } =
        (.error (.exc (.generic d)), log) →
      main true cs m scope "present" =
        (.failed ("Exception: " ++ d), log))
    ∧
    (∀ (cs : CS) (m : Module) (scope : Scope) (d : String)
        (log : List Call),
      absent_instance_group cs m scope
          { instance_group := none, result := initialResult } =
        (.error (.exc (.cloudstack d)), log) →
      main true cs m scope "absent" =
        (.failed ("CloudStackException: " ++ d), log))
    ∧
    (∀ (cs : CS) (m : Module) (scope : Scope) (d : String)
        (log : List Call),
      absent_instance_group cs m scope
          { instance_group := none, result := initialResult } =
        (.error (.exc (.generic d)), log) →
      main true cs m scope "absent" =
        (.failed ("Exception: " ++ d), log))
    ∧
    (∀ (msg : String) (r : Result), Outcome.failed msg ≠ Outcome.exited r) := by
  refine ⟨fun cs m scope state => by simp [main],
    fun cs m scope d log h => by simp [main, h],
    fun cs m scope d log h => by simp [main, h],
    fun cs m scope d log h => by simp [main, h],
    fun cs m scope d log h => by simp [main, h],
    fun msg r => by simp⟩

/-- Witness for C9: the three failure channels evaluated on concrete
stores. -/
theorem c9_failure_taxonomy_witness :
    main false csBoom mWeb scope0 "present" =
      (.failed "python library cs required: pip install cs", []) ∧
    main true csBoom mWeb scope0 "present" =
      (.failed "CloudStackException: boom", [.list scope0]) ∧
    main true csOops mWeb scope0 "absent" =
      (.failed "Exception: oops", [.list scope0]) ∧
    Outcome.failed "Exception: oops" ≠ Outcome.exited initialResult :=
  ⟨c9_failure_taxonomy.1 csBoom mWeb scope0 "present",
   c9_failure_taxonomy.2.1 csBoom mWeb scope0 "boom" [.list scope0] rfl,
   c9_failure_taxonomy.2.2.2.2.1 csOops mWeb scope0 "oops" [.list scope0]
     rfl,
   c9_failure_taxonomy.2.2.2.2.2 "Exception: oops" initialResult⟩

/-- C10 counterexample: an entry already present in the result mapping under
one of the six keys is *not* left unchanged — `get_result` overwrites it
with the descriptor's field.  With a prior binding `name ↦ "old"` and a
descriptor carrying `name = "new"`, the call rebinds `name` to `"new"`. -/
theorem c10_frame_counterexample :
    dget (get_result [("name", Value.str "old")] (some [("name", "new")]))
        "name" = some (Value.str "new") ∧
    some (Value.str "new") ≠ some (Value.str "old") := by
  constructor
  · rfl
  · decide

/-- C10 amended: `get_result` only ever adds or updates entries under the
six keys `id`, `created`, `name`, `project`, `domain`, `account`; every
entry under any other key — in particular the `changed` flag — is left
unchanged; an entry already bound under one of the six keys is overwritten
when the descriptor carries that field; and with no descriptor (none or the
empty dict) the result mapping is returned entirely unmodified. -/
theorem c10_frame (r : Result) :
    (∀ (ig : Option Dict) (k : String), k ∉ sixKeys →
      dget (get_result r ig) k = dget r k)
    ∧ get_result r none = r
    ∧ get_result r (some []) = r := by
  refine ⟨fun ig k hk => ?_, rfl, rfl⟩
  cases ig with
  | none => rfl
  | some g => rw [dget_get_result, if_neg hk]

/-- Witness for C10 amended: the `changed` flag and a foreign key survive a
concrete projection untouched. -/
theorem c10_frame_witness :
    dget (get_result [("changed", Value.bool true),
        ("extra", Value.str "keep")] (some gNew)) "changed" =
      dget [("changed", Value.bool true), ("extra", Value.str "keep")]
        "changed" ∧
    dget (get_result [("changed", Value.bool true),
        ("extra", Value.str "keep")] (some gNew)) "extra" =
      dget [("changed", Value.bool true), ("extra", Value.str "keep")]
        "extra" :=
  ⟨(c10_frame [("changed", Value.bool true), ("extra", Value.str "keep")]).1
     (some gNew) "changed" (by decide),
   (c10_frame [("changed", Value.bool true), ("extra", Value.str "keep")]).1
     (some gNew) "extra" (by decide)⟩

end CsInstanceGroup
